import Mathlib

/-!
# Verification of the HRKey proof-of-correlation pipeline

Shallow embedding of the analytic pipeline of `analytics/proof_of_correlation`
(and of the artifact writer in `ml/train_hrscore.py`), together with theorems
settling the specified properties against the embedded code.

Conventions of the embedding:
* pandas/numpy numeric cells are modelled as `Option ℚ`; `none` stands for a
  missing value (`NaN` / `NULL`).  All numeric columns carry the same type.
* The scipy estimators `stats.pearsonr` / `stats.spearmanr` are external
  black boxes (out of scope per the design spec); they are modelled as
  abstract functions `List ℚ → List ℚ → ℚ × ℚ` returning the coefficient and
  the two-sided p-value.
* Fallible Python functions are embedded with `Except String` results; a
  `raise` becomes `.error`.
* Database and filesystem effects are modelled by explicit state passing; a
  sequence of committed transactions is recorded as a list of durable states.
-/

namespace HRKeyPoC

/-- A pandas Series of numeric values; `none` models a missing cell (NaN). -/
abbrev Series := List (Option ℚ)

/-- The black-box scipy correlation estimators (`stats.pearsonr` and
`stats.spearmanr`), each returning `(coefficient, two_sided_p_value)`. -/
structure CorrStats where
  pearson : List ℚ → List ℚ → ℚ × ℚ
  spearman : List ℚ → List ℚ → ℚ × ℚ

/-- Result dictionary of `compute_correlation`
(`correlation_analyzer.py`).  `none` in the `correlation` / `p_value`
fields models `np.nan`. -/
structure CorrOut where
  correlation : Option ℚ
  p_value : Option ℚ
  n_samples : ℕ
deriving DecidableEq, Repr

/-- `valid_mask = x.notna() & y.notna()` followed by selecting the masked
rows of both series (`correlation_analyzer.py` lines 39-42): the list of
jointly non-null `(x, y)` pairs, in row order. -/
def cleanPairs (x y : Series) : List (ℚ × ℚ) :=
  (x.zip y).filterMap fun p =>
    match p with
    | (some a, some b) => some (a, b)
    | _ => none

/-- `compute_correlation(x, y, method)` (`correlation_analyzer.py` lines
19-65): drop rows where either side is null, return NaN/NaN when fewer than
2 rows remain, otherwise apply the requested scipy estimator to the cleaned
series; an unknown method raises `ValueError`. -/
def compute_correlation (st : CorrStats) (x y : Series) (method : String) :
    Except String CorrOut :=
  let pairs := cleanPairs x y
  let n_samples := pairs.length
  if n_samples < 2 then
    .ok ⟨none, none, n_samples⟩
  else if method = "pearson" then
    let r := st.pearson (pairs.map Prod.fst) (pairs.map Prod.snd)
    .ok ⟨some r.1, some r.2, n_samples⟩
  else if method = "spearman" then
    let r := st.spearman (pairs.map Prod.fst) (pairs.map Prod.snd)
    .ok ⟨some r.1, some r.2, n_samples⟩
  else
    .error ("Unknown correlation method: " ++ method)

/-- Spec-side vocabulary: the number of rows where both the feature and the
target are non-null (row-wise pairwise deletion count). -/
def jointNonNullCount (x y : Series) : ℕ :=
  (x.zip y).countP fun p => p.1.isSome && p.2.isSome

theorem cleanPairs_length (x y : Series) :
    (cleanPairs x y).length = jointNonNullCount x y := by
  unfold cleanPairs jointNonNullCount
  induction x.zip y with
  | nil => rfl
  | cons hd tl ih =>
    cases hd with
    | mk a b =>
      cases a <;> cases b <;>
        simp [List.filterMap_cons, List.countP_cons, ih]

/-- C5: `compute_correlation` computes the coefficient and two-sided p-value
over exactly the jointly non-null rows (row-wise pairwise deletion) and
reports `n_samples` as the count of those rows, for both estimators. -/
theorem compute_correlation_pairwise_deletion (st : CorrStats) (x y : Series)
    (h : 2 ≤ jointNonNullCount x y) :
    compute_correlation st x y "pearson" =
      .ok ⟨some (st.pearson ((cleanPairs x y).map Prod.fst)
                   ((cleanPairs x y).map Prod.snd)).1,
           some (st.pearson ((cleanPairs x y).map Prod.fst)
                   ((cleanPairs x y).map Prod.snd)).2,
           jointNonNullCount x y⟩ ∧
    compute_correlation st x y "spearman" =
      .ok ⟨some (st.spearman ((cleanPairs x y).map Prod.fst)
                   ((cleanPairs x y).map Prod.snd)).1,
           some (st.spearman ((cleanPairs x y).map Prod.fst)
                   ((cleanPairs x y).map Prod.snd)).2,
           jointNonNullCount x y⟩ := by
  have hlen : (cleanPairs x y).length = jointNonNullCount x y := cleanPairs_length x y
  have hnot : ¬ (cleanPairs x y).length < 2 := by omega
  constructor
  · show (if (cleanPairs x y).length < 2 then _
      else if "pearson" = "pearson" then _
      else if "pearson" = "spearman" then _ else _) = _
    rw [if_neg hnot, if_pos rfl, hlen]
  · show (if (cleanPairs x y).length < 2 then _
      else if "spearman" = "pearson" then _
      else if "spearman" = "spearman" then _ else _) = _
    rw [if_neg hnot, if_neg (by decide), if_pos rfl, hlen]

/-- C5 witness: a 5-row input with 2 rows missing the target value yields
`n_samples = 3`, not 5 (scenario from the spec), for a concrete estimator. -/
theorem compute_correlation_pairwise_deletion_witness :
    (2 ≤ jointNonNullCount
        [some 1, some 2, some 3, some 4, some 5]
        [some 2, none, some 6, none, some 10]) ∧
    (compute_correlation ⟨fun _ _ => (1, 0), fun _ _ => (1, 0)⟩
        [some 1, some 2, some 3, some 4, some 5]
        [some 2, none, some 6, none, some 10] "pearson" =
      .ok ⟨some 1, some 0, 3⟩) := by
  refine ⟨by decide, ?_⟩
  have h := compute_correlation_pairwise_deletion
    ⟨fun _ _ => (1, 0), fun _ _ => (1, 0)⟩
    [some 1, some 2, some 3, some 4, some 5]
    [some 2, none, some 6, none, some 10] (by decide)
  rw [h.1]
  rfl

/-- C9: when the jointly non-null row count is 0 or 1, `compute_correlation`
does not raise for either estimator: it returns NaN for both the correlation
and the p-value while still reporting the actual `n_samples`. -/
theorem compute_correlation_degenerate_no_raise (st : CorrStats) (x y : Series)
    (h : jointNonNullCount x y < 2) :
    compute_correlation st x y "pearson" =
      .ok ⟨none, none, jointNonNullCount x y⟩ ∧
    compute_correlation st x y "spearman" =
      .ok ⟨none, none, jointNonNullCount x y⟩ := by
  have hlen : (cleanPairs x y).length = jointNonNullCount x y := cleanPairs_length x y
  have hlt : (cleanPairs x y).length < 2 := by omega
  constructor
  · show (if (cleanPairs x y).length < 2 then _ else _) = _
    rw [if_pos hlt, hlen]
  · show (if (cleanPairs x y).length < 2 then _ else _) = _
    rw [if_pos hlt, hlen]

/-- C9 witness: a concrete pair of series with exactly one jointly non-null
row returns NaN/NaN with `n_samples = 1` for both estimators. -/
theorem compute_correlation_degenerate_no_raise_witness :
    (jointNonNullCount [some 1, some 2, none] [some 3, none, some 4] < 2) ∧
    (compute_correlation ⟨fun _ _ => (1, 0), fun _ _ => (1, 0)⟩
        [some 1, some 2, none] [some 3, none, some 4] "pearson" =
      .ok ⟨none, none, 1⟩) ∧
    (compute_correlation ⟨fun _ _ => (1, 0), fun _ _ => (1, 0)⟩
        [some 1, some 2, none] [some 3, none, some 4] "spearman" =
      .ok ⟨none, none, 1⟩) := by
  have h := compute_correlation_degenerate_no_raise
    ⟨fun _ _ => (1, 0), fun _ _ => (1, 0)⟩
    [some 1, some 2, none] [some 3, none, some 4] (by decide)
  refine ⟨by decide, ?_, ?_⟩
  · rw [h.1]; rfl
  · rw [h.2]; rfl

/-! ## DataFrame model and `compute_basic_correlations` -/

/-- A pandas DataFrame restricted to what `compute_basic_correlations` reads:
named numeric columns of equal length.  The source additionally checks
`dtype in [np.float64, np.int64]`; every column of this model is numeric, so
that check is identically true here.  The boolean `hired` column is modelled
already converted to numeric (the source casts it with `astype(int)`). -/
structure DataFrame where
  cols : List (String × Series)
deriving DecidableEq, Repr

/-- `df[name]`: the values of a named column (empty if absent). -/
def getCol (df : DataFrame) (name : String) : Series :=
  match df.cols.find? (fun c => c.1 == name) with
  | some c => c.2
  | none => []

/-- `name in df.columns`. -/
def hasCol (df : DataFrame) (name : String) : Bool :=
  df.cols.any (fun c => c.1 == name)

/-- `col.startswith(("kpi_", "cognitive_", "reference_"))`: the naming
convention identifying feature columns. -/
def isFeatureName (c : String) : Bool :=
  c.startsWith "kpi_" || c.startsWith "cognitive_" || c.startsWith "reference_"

/-- Feature columns of the frame (`correlation_analyzer.py` lines 105-109). -/
def featureCols (df : DataFrame) : List String :=
  (df.cols.map Prod.fst).filter isFeatureName

/-- Target columns (`correlation_analyzer.py` lines 112-116): `hired` then
`performance_score`, each if present. -/
def targetCols (df : DataFrame) : List String :=
  (if hasCol df "hired" then ["hired"] else []) ++
    (if hasCol df "performance_score" then ["performance_score"] else [])

/-- Count of non-null values of a series (`df[col].notna().sum()`). -/
def nonNullCount (xs : Series) : ℕ :=
  xs.countP Option.isSome

/-- pandas `Series.var()` (skipna, ddof=1): `none` models the NaN returned
when fewer than two non-null values are present. -/
def varQ (xs : Series) : Option ℚ :=
  let vs := xs.filterMap id
  if vs.length < 2 then none
  else
    let m := vs.sum / (vs.length : ℚ)
    some ((vs.map (fun v => (v - m) * (v - m))).sum / ((vs.length : ℚ) - 1))

/-- The feature filter of `compute_basic_correlations`
(`correlation_analyzer.py` lines 132-145): a feature survives when its
variance is not exactly zero (the Python test `var() == 0` is false for a
NaN variance) and its own non-null count reaches
`config.min_samples_for_correlation`. -/
def validFeatures (minSamples : ℕ) (df : DataFrame) : List String :=
  (featureCols df).filter fun c =>
    !(varQ (getCol df c) == some 0) &&
      decide (minSamples ≤ nonNullCount (getCol df c))

/-- One row of the tidy correlation results frame. -/
structure CorrRow where
  feature_name : String
  target_name : String
  metric_type : String
  correlation : Option ℚ
  p_value : Option ℚ
  n_samples : ℕ
deriving DecidableEq, Repr

/-- The `try`/`except` around each `compute_correlation` call
(`correlation_analyzer.py` lines 162-188): an exception skips the row with a
warning instead of aborting the batch. -/
def tryRow (st : CorrStats) (x y : Series) (feature target metric : String) :
    List CorrRow :=
  match compute_correlation st x y metric with
  | .ok r => [⟨feature, target, metric, r.correlation, r.p_value, r.n_samples⟩]
  | .error _ => []

/-- `compute_basic_correlations(df)` (`correlation_analyzer.py` lines
68-235): identify features and targets, filter features by variance and
per-feature sample count, then emit a Pearson and a Spearman row per
surviving (feature, target) pair.  The significance filter of step 5 only
feeds the log; the function returns the full results frame. -/
def compute_basic_correlations (st : CorrStats) (minSamples : ℕ)
    (df : DataFrame) : List CorrRow :=
  if featureCols df = [] then []
  else if targetCols df = [] then []
  else
    (validFeatures minSamples df).flatMap fun feature =>
      (targetCols df).flatMap fun target =>
        tryRow st (getCol df feature) (getCol df target) feature target
            "pearson" ++
          tryRow st (getCol df feature) (getCol df target) feature target
            "spearman"

/-- The feature of every emitted row passed the feature filter. -/
theorem mem_compute_basic_correlations_feature (st : CorrStats)
    (minSamples : ℕ) (df : DataFrame) (r : CorrRow)
    (h : r ∈ compute_basic_correlations st minSamples df) :
    r.feature_name ∈ validFeatures minSamples df := by
  unfold compute_basic_correlations at h
  by_cases hf : featureCols df = []
  · rw [if_pos hf] at h; cases h
  rw [if_neg hf] at h
  by_cases ht : targetCols df = []
  · rw [if_pos ht] at h; cases h
  rw [if_neg ht] at h
  rw [List.mem_flatMap] at h
  obtain ⟨feature, hfeat, h⟩ := h
  rw [List.mem_flatMap] at h
  obtain ⟨target, _, h⟩ := h
  rw [List.mem_append] at h
  rcases h with h | h <;>
    · unfold tryRow at h
      split at h
      · rw [List.mem_singleton] at h
        subst h
        exact hfeat
      · cases h

/-- A "zero" instantiation of the black-box estimators, used for concrete
evaluation; row emission in `compute_basic_correlations` does not depend on
the estimator values. -/
def constStats : CorrStats :=
  ⟨fun _ _ => (0, 0), fun _ _ => (0, 0)⟩

/-- The frame refuting the joint-sample-count reading of the gate: feature
`kpi_a` has 30 non-null values (passing the per-feature gate at the default
threshold 30) and nonzero variance, while the target `performance_score` is
non-null on only 2 of those rows. -/
def dfJointGate : DataFrame :=
  ⟨[("kpi_a", List.replicate 15 (some 0) ++ List.replicate 15 (some 1)),
    ("performance_score",
      (some 1 : Option ℚ) :: (some 2 : Option ℚ) :: List.replicate 28 none)]⟩

/-- C1 counterexample: a (feature, target) pair whose jointly non-null
sample count (2) is below the default minimum (30) still gets both its
Pearson and its Spearman correlation rows, because the sample-size gate in
`compute_basic_correlations` tests the non-null count of the feature itself, not the
joint count. -/
theorem compute_basic_correlations_joint_gate_cex :
    jointNonNullCount (getCol dfJointGate "kpi_a")
        (getCol dfJointGate "performance_score") < 30 ∧
    ((compute_basic_correlations constStats 30 dfJointGate).filter
        (fun r => r.feature_name == "kpi_a" &&
          r.target_name == "performance_score")).map
        (fun r => (r.metric_type, r.n_samples)) =
      [("pearson", 2), ("spearman", 2)] := by
  constructor
  · decide
  · set_option maxRecDepth 10000 in with_unfolding_all rfl

/-- C1 amended: the sample-size gate of `compute_basic_correlations` is
applied per feature, on the non-null count of the feature itself: a feature whose
non-null count is below `min_samples_for_correlation` produces no
correlation row at all (for any target and either estimator). -/
theorem compute_basic_correlations_feature_gate (st : CorrStats)
    (minSamples : ℕ) (df : DataFrame) (f : String)
    (h : nonNullCount (getCol df f) < minSamples) :
    (compute_basic_correlations st minSamples df).filter
      (fun r => r.feature_name == f) = [] := by
  rw [List.filter_eq_nil_iff]
  intro r hr
  have hmem := mem_compute_basic_correlations_feature st minSamples df r hr
  unfold validFeatures at hmem
  rw [List.mem_filter] at hmem
  have hgate := hmem.2
  rw [Bool.and_eq_true, decide_eq_true_iff] at hgate
  intro hbeq
  rw [beq_iff_eq] at hbeq
  rw [hbeq] at hgate
  omega

/-- C1 amended witness: with the default threshold 30, a feature with a
single non-null value yields no correlation row. -/
theorem compute_basic_correlations_feature_gate_witness :
    nonNullCount (getCol (⟨[("kpi_b", [some 1]), ("hired", [some 1])]⟩ :
        DataFrame) "kpi_b") < 30 ∧
    (compute_basic_correlations constStats 30
        ⟨[("kpi_b", [some 1]), ("hired", [some 1])]⟩).filter
      (fun r => r.feature_name == "kpi_b") = [] :=
  ⟨by decide,
   compute_basic_correlations_feature_gate constStats 30
     ⟨[("kpi_b", [some 1]), ("hired", [some 1])]⟩ "kpi_b" (by decide)⟩

/-! ## Results storage (`results_storage.py` / `database.py`)

`store_correlation_results` runs its DELETE inside one
`with get_db_connection() as conn:` scope (whose context manager commits on
exit, `database.py` lines 54-66) and its batch INSERT inside `execute_many`,
which opens a *second* connection scope and commits separately
(`database.py` lines 145-163).  The embedding therefore records a list of
durable (committed) table states: one entry per committed transaction. -/

/-- A persisted row of the `correlation_results` table.  `computed_at` is
the `datetime.utcnow()` value passed in by the caller of the embedding. -/
structure StoredCorrRow where
  feature_name : String
  target_name : String
  metric_type : String
  correlation : Option ℚ
  p_value : Option ℚ
  n_samples : ℕ
  analysis_version : String
  computed_at : ℕ
deriving DecidableEq, Repr

/-- One durable table state. -/
abbrev CorrTable := List StoredCorrRow

/-- The data tuple built for one valid input row
(`results_storage.py` lines 81-91): tagged `"v1.0"` and stamped with the
current time. -/
def mkStoredRow (now : ℕ) (r : CorrRow) : StoredCorrRow :=
  ⟨r.feature_name, r.target_name, r.metric_type, r.correlation, r.p_value,
   r.n_samples, "v1.0", now⟩

/-- `analysis_version = "v1.0"` (single-quoted in the SQL), the predicate of the DELETE statement. -/
def isV10 (r : StoredCorrRow) : Bool :=
  r.analysis_version == "v1.0"

/-- Result of one `store_correlation_results` call: the list of durable
states committed by the call (in commit order), the final table state, and
the Python return value. -/
structure StoreOutcome where
  commits : List CorrTable
  final : CorrTable
  returned : ℕ
deriving Repr

/-- `store_correlation_results(correlations_df)` (`results_storage.py`
lines 18-102) against a starting table state `db`: return 0 before touching
the database when the input is empty or every coefficient is NaN; otherwise
commit the DELETE of all `"v1.0"` rows as one transaction, then commit the
batch INSERT of the non-NaN rows as a second transaction. -/
def store_correlation_results (db : CorrTable) (input : List CorrRow)
    (now : ℕ) : StoreOutcome :=
  if input.isEmpty then ⟨[], db, 0⟩
  else
    let validRows := input.filter fun r => r.correlation.isSome
    if validRows.isEmpty then ⟨[], db, 0⟩
    else
      let afterDelete := db.filter fun r => !(isV10 r)
      let newRows := validRows.map (mkStoredRow now)
      ⟨[afterDelete, afterDelete ++ newRows], afterDelete ++ newRows,
       newRows.length⟩

/-- The valid (non-NaN coefficient) subset of the input frame. -/
def validInput (input : List CorrRow) : List CorrRow :=
  input.filter fun r => r.correlation.isSome

theorem store_correlation_results_eq (db : CorrTable) (input : List CorrRow)
    (now : ℕ) :
    store_correlation_results db input now =
      if (validInput input).isEmpty then ⟨[], db, 0⟩
      else
        ⟨[db.filter fun r => !(isV10 r),
          (db.filter fun r => !(isV10 r)) ++
            (validInput input).map (mkStoredRow now)],
         (db.filter fun r => !(isV10 r)) ++
           (validInput input).map (mkStoredRow now),
         ((validInput input).map (mkStoredRow now)).length⟩ := by
  unfold store_correlation_results validInput
  cases input with
  | nil => rfl
  | cons hd tl => simp [List.isEmpty_iff]

/-- C10: `store_correlation_results` returns the number of non-NaN rows it
inserted; when the input is empty or every coefficient is NaN it commits
nothing and leaves the table (previously stored `"v1.0"` rows included)
unchanged; otherwise its final state keeps the non-`"v1.0"` rows and holds
exactly one inserted copy of each non-NaN input row. -/
theorem store_correlation_results_inserts_valid (db : CorrTable)
    (input : List CorrRow) (now : ℕ) :
    (store_correlation_results db input now).returned =
      (validInput input).length ∧
    (store_correlation_results db input now).commits =
      (if (validInput input).isEmpty then []
       else [db.filter fun r => !(isV10 r),
             (db.filter fun r => !(isV10 r)) ++
               (validInput input).map (mkStoredRow now)]) ∧
    (store_correlation_results db input now).final =
      (if (validInput input).isEmpty then db
       else (db.filter fun r => !(isV10 r)) ++
         (validInput input).map (mkStoredRow now)) := by
  rw [store_correlation_results_eq]
  by_cases h : (validInput input).isEmpty = true
  · have h0 : validInput input = [] := by simpa [List.isEmpty_iff] using h
    simp [h, h0]
  · simp [h]

/-- A `"v1.0"` row already stored before a call. -/
def oldRowC2 : StoredCorrRow :=
  ⟨"kpi_a", "hired", "pearson", some 1, some 0, 30, "v1.0", 0⟩

/-- One valid (non-NaN) input row. -/
def newInputC2 : CorrRow :=
  ⟨"kpi_b", "hired", "pearson", some 1, some 0, 40⟩

/-- C2 counterexample: starting from a table holding one `"v1.0"` row and
storing one valid row, the first committed (durable) state of the call is
the empty table — all old rows already deleted, no new row yet inserted —
and it differs from both the initial and the final state.  The delete and
the insert are therefore not inside a single transaction boundary. -/
theorem store_correlation_results_not_single_txn_cex :
    [oldRowC2].countP isV10 = 1 ∧
    (store_correlation_results [oldRowC2] [newInputC2] 1).commits.head? =
      some [] ∧
    ([] : CorrTable) ≠ [oldRowC2] ∧
    ([] : CorrTable) ≠
      (store_correlation_results [oldRowC2] [newInputC2] 1).final := by
  refine ⟨by decide, by decide, by decide, by decide⟩

/-- C2 amended: the DELETE and the INSERT are committed as two separate
transactions.  When at least one valid row is stored, the call commits
exactly two durable states: first the table with every `"v1.0"` row removed
and none of the new rows present, then that state plus the new rows (the
replace-by-version final state). -/
theorem store_correlation_results_two_transactions (db : CorrTable)
    (input : List CorrRow) (now : ℕ) (h : validInput input ≠ []) :
    (store_correlation_results db input now).commits =
      [db.filter fun r => !(isV10 r),
       (db.filter fun r => !(isV10 r)) ++
         (validInput input).map (mkStoredRow now)] ∧
    (db.filter fun r => !(isV10 r)).countP isV10 = 0 ∧
    (store_correlation_results db input now).final =
      (db.filter fun r => !(isV10 r)) ++
        (validInput input).map (mkStoredRow now) := by
  have hne : ¬ ((validInput input).isEmpty = true) := by
    simp [List.isEmpty_iff, h]
  rw [store_correlation_results_eq]
  refine ⟨by simp [hne], ?_, by simp [hne]⟩
  rw [List.countP_eq_zero]
  intro a ha
  rw [List.mem_filter] at ha
  simpa using ha.2

/-- C2 amended witness: the two committed states at a concrete call. -/
theorem store_correlation_results_two_transactions_witness :
    validInput [newInputC2] ≠ [] ∧
    (store_correlation_results [oldRowC2] [newInputC2] 1).commits =
      [[], [mkStoredRow 1 newInputC2]] := by
  have h := store_correlation_results_two_transactions [oldRowC2]
    [newInputC2] 1 (by decide)
  refine ⟨by decide, ?_⟩
  rw [h.1]
  rfl

/-- Number of `"v1.0"`-tagged rows in a table state. -/
def v10Count (t : CorrTable) : ℕ :=
  t.countP isV10

theorem filter_notV10_countP (l : CorrTable) :
    (l.filter fun r => !(isV10 r)).countP isV10 = 0 := by
  rw [List.countP_eq_zero]
  intro a ha
  rw [List.mem_filter] at ha
  simpa using ha.2

theorem filter_notV10_filter_isV10 (l : CorrTable) :
    (l.filter fun r => !(isV10 r)).filter isV10 = [] := by
  rw [List.filter_eq_nil_iff]
  intro a ha
  rw [List.mem_filter] at ha
  simpa using ha.2

theorem filter_notV10_idem (l : CorrTable) :
    ((l.filter fun r => !(isV10 r)).filter fun r => !(isV10 r)) =
      l.filter fun r => !(isV10 r) := by
  rw [List.filter_filter]
  simp

theorem map_mkStored_filter_notV10 (l : List CorrRow) (now : ℕ) :
    ((l.map (mkStoredRow now)).filter fun r => !(isV10 r)) = [] := by
  rw [List.filter_eq_nil_iff]
  intro a ha
  rw [List.mem_map] at ha
  obtain ⟨b, _, hb⟩ := ha
  subst hb
  simp [isV10, mkStoredRow]

theorem map_mkStored_filter_isV10 (l : List CorrRow) (now : ℕ) :
    (l.map (mkStoredRow now)).filter isV10 = l.map (mkStoredRow now) := by
  rw [List.filter_eq_self]
  intro a ha
  rw [List.mem_map] at ha
  obtain ⟨b, _, hb⟩ := ha
  subst hb
  simp [isV10, mkStoredRow]

theorem map_mkStored_countP (l : List CorrRow) (now : ℕ) :
    (l.map (mkStoredRow now)).countP isV10 = l.length := by
  induction l with
  | nil => rfl
  | cons hd tl ih => simp [List.countP_cons, isV10, mkStoredRow, ih]

/-- C8: storing the same input twice is idempotent at the `"v1.0"`
granularity: after the second call the table holds the same number of
`"v1.0"` rows (and the same total number of rows) as after the first call,
and its `"v1.0"` rows are exactly one copy of the valid input set. -/
theorem store_correlation_results_idempotent (db : CorrTable)
    (input : List CorrRow) (t1 t2 : ℕ) :
    v10Count (store_correlation_results
        ((store_correlation_results db input t1).final) input t2).final =
      v10Count ((store_correlation_results db input t1).final) ∧
    (store_correlation_results
        ((store_correlation_results db input t1).final) input t2).final.length =
      ((store_correlation_results db input t1).final).length ∧
    ((store_correlation_results
        ((store_correlation_results db input t1).final) input t2).final).filter
        isV10 =
      (if (validInput input).isEmpty then
        ((store_correlation_results db input t1).final).filter isV10
       else (validInput input).map (mkStoredRow t2)) := by
  by_cases h : (validInput input).isEmpty = true
  · rw [store_correlation_results_eq, store_correlation_results_eq]
    simp [h]
  · have hfin1 : (store_correlation_results db input t1).final =
        (db.filter fun r => !(isV10 r)) ++
          (validInput input).map (mkStoredRow t1) := by
      rw [store_correlation_results_eq]
      simp [h]
    have hmid : (((db.filter fun r => !(isV10 r)) ++
        (validInput input).map (mkStoredRow t1)).filter
          fun r => !(isV10 r)) = db.filter fun r => !(isV10 r) := by
      rw [List.filter_append, filter_notV10_idem,
        map_mkStored_filter_notV10, List.append_nil]
    have hfin2 : (store_correlation_results
        ((store_correlation_results db input t1).final) input t2).final =
        (db.filter fun r => !(isV10 r)) ++
          (validInput input).map (mkStoredRow t2) := by
      rw [store_correlation_results_eq]
      simp [h, hfin1, hmid]
    unfold v10Count
    rw [hfin2, hfin1]
    refine ⟨?_, ?_, ?_⟩
    · rw [List.countP_append, List.countP_append, filter_notV10_countP,
        map_mkStored_countP, map_mkStored_countP]
    · rw [List.length_append, List.length_append, List.length_map,
        List.length_map]
    · rw [List.filter_append, filter_notV10_filter_isV10,
        map_mkStored_filter_isV10, List.nil_append, if_neg h]

/-! ## Baseline model training (`baseline_models.py`) -/

/-- Keep only the rows where the target is non-null: `X = X[valid_mask]`
applied to one column (`baseline_models.py` lines 53-56). -/
def maskBy (y : Series) (col : Series) : Series :=
  (col.zip y).filterMap fun p => if p.2.isSome then some p.1 else none

/-- pandas `Series.median()` (skipna): middle element of the sorted
non-null values, averaging the two middle elements for an even count;
NaN (`none`) when no non-null value exists. -/
def medianQ (xs : Series) : Option ℚ :=
  let vs := (xs.filterMap id).mergeSort fun a b => decide (a ≤ b)
  if vs.length = 0 then none
  else if vs.length % 2 = 1 then vs[vs.length / 2]?
  else
    match vs[vs.length / 2 - 1]?, vs[vs.length / 2]? with
    | some a, some b => some ((a + b) / 2)
    | _, _ => none

/-- `X[col].fillna(X[col].median())` (`baseline_models.py` lines 63-65):
when the column has no non-null value the median is NaN and the nulls
remain. -/
def fillMedian (col : Series) : Series :=
  match medianQ col with
  | some m => col.map fun v => some (v.getD m)
  | none => col

/-- Result of `prepare_features_and_targets` (`baseline_models.py` lines
28-72): the feature frame restricted to rows with a non-null target,
median-filled and stripped of zero-variance columns, the target series,
and the surviving feature names. -/
structure Prepared where
  X : DataFrame
  y : Series
  featureNames : List String
deriving Repr

/-- `prepare_features_and_targets(df, target)` (`baseline_models.py` lines
28-72).  The `hired` boolean-to-int cast is the identity in this numeric
model.  The zero-variance filter keeps columns with `var() > 0` (a NaN
variance fails that test, as in pandas). -/
def prepare_features_and_targets (df : DataFrame) (target : String) :
    Prepared :=
  let y0 := getCol df target
  let y := maskBy y0 y0
  let masked := (featureCols df).map fun c => (c, maskBy y0 (getCol df c))
  let filled := masked.map fun c => (c.1, fillMedian c.2)
  let nonZero := filled.filter fun c =>
    match varQ c.2 with
    | some v => decide (0 < v)
    | none => false
  ⟨⟨nonZero⟩, y, nonZero.map Prod.fst⟩

/-- Why the training branch of a target produced no trained models: the target
column is absent or entirely null (skipped with a warning,
`baseline_models.py` lines 326-327 / 406-407), or fewer than the hard-coded
10 samples were available (logged as "Insufficient samples",
`baseline_models.py` lines 263-264 / 345-346). -/
inductive TrainSkip where
  | missingTarget : TrainSkip
  | insufficientSamples : ℕ → TrainSkip
deriving DecidableEq, Repr

/-- What `train_baseline_models` records for one target when models are
actually fit: the model types trained, the prepared sample count and the
features used. -/
structure TargetTrainResult where
  models : List String
  n_samples : ℕ
  used_features : List String
deriving DecidableEq, Repr

/-- One target branch of `train_baseline_models` (`baseline_models.py`
lines 251-327 for `hired`, 333-407 for `performance_score`): skip when the
target column is absent or all-null, report insufficient samples when the
prepared row count is below the hard-coded 10, otherwise fit the models of the
branch. -/
def targetBranch (df : DataFrame) (target : String)
    (modelNames : List String) : Except TrainSkip TargetTrainResult :=
  if hasCol df target && decide (0 < nonNullCount (getCol df target)) then
    if (prepare_features_and_targets df target).y.length < 10 then
      .error (.insufficientSamples
        (prepare_features_and_targets df target).y.length)
    else
      .ok ⟨modelNames, (prepare_features_and_targets df target).y.length,
           (prepare_features_and_targets df target).featureNames⟩
  else .error .missingTarget

/-- `train_baseline_models(df)` (`baseline_models.py` lines 205-413): the
classification branch for `hired` and the regression branch for
`performance_score`. -/
def train_baseline_models (df : DataFrame) :
    Except TrainSkip TargetTrainResult × Except TrainSkip TargetTrainResult :=
  (targetBranch df "hired" ["logistic_regression", "random_forest"],
   targetBranch df "performance_score" ["linear_regression", "random_forest"])

theorem prepare_y_eq (df : DataFrame) (target : String) :
    (prepare_features_and_targets df target).y =
      maskBy (getCol df target) (getCol df target) := rfl

theorem maskBy_self_length (y : Series) :
    (maskBy y y).length = nonNullCount y := by
  unfold maskBy nonNullCount
  induction y with
  | nil => rfl
  | cons hd tl ih =>
    cases hd <;>
      simp [List.zip_cons_cons, List.filterMap_cons, List.countP_cons, ih]

/-- A 12-row dataset (12 non-null `performance_score` values, one feature
with positive variance): the spec scenario input for the training gate. -/
def dfTwelve : DataFrame :=
  ⟨[("kpi_a", (List.range 12).map fun i => some ((i : ℚ) + 1)),
    ("performance_score", (List.range 12).map fun i => some ((i : ℚ) + 1))]⟩

/-- C3 counterexample: against the 12-row dataset the regression branch of
`train_baseline_models` fits its models (12 is compared against the
hard-coded 10, and no configurable `min_samples_for_training` exists in the
configuration), even though 12 is below the claimed threshold of 20. -/
theorem train_baseline_models_trains_on_twelve_cex :
    nonNullCount (getCol dfTwelve "performance_score") = 12 ∧
    (12 < 20) ∧
    (train_baseline_models dfTwelve).2 =
      .ok ⟨["linear_regression", "random_forest"], 12, ["kpi_a"]⟩ := by
  refine ⟨by decide, by decide, ?_⟩
  set_option maxRecDepth 20000 in with_unfolding_all rfl

/-- C3 amended: the minimum-sample threshold of `train_baseline_models` is
the hard-coded constant 10 (there is no `min_samples_for_training`
configuration field): with the target column present and not all-null, the
regression branch reports an explicit insufficient-samples condition and
fits nothing exactly when fewer than 10 prepared samples exist, and fits
its models otherwise. -/
theorem train_baseline_models_gate_is_ten (df : DataFrame)
    (hcol : hasCol df "performance_score" = true)
    (hpos : 0 < nonNullCount (getCol df "performance_score")) :
    (train_baseline_models df).2 =
      if nonNullCount (getCol df "performance_score") < 10 then
        .error (.insufficientSamples
          (nonNullCount (getCol df "performance_score")))
      else
        .ok ⟨["linear_regression", "random_forest"],
             nonNullCount (getCol df "performance_score"),
             (prepare_features_and_targets df
               "performance_score").featureNames⟩ := by
  show targetBranch df "performance_score" _ = _
  have hy : (prepare_features_and_targets df "performance_score").y.length =
      nonNullCount (getCol df "performance_score") := by
    rw [prepare_y_eq]
    exact maskBy_self_length (getCol df "performance_score")
  unfold targetBranch
  rw [if_pos (by rw [hcol]; simpa using hpos), hy]

/-- C3 amended witness: a 5-row dataset is skipped with the explicit
insufficient-samples condition. -/
theorem train_baseline_models_gate_is_ten_witness :
    (hasCol (⟨[("performance_score", List.replicate 5 (some 3))]⟩ :
        DataFrame) "performance_score" = true) ∧
    (0 < nonNullCount (getCol
        ⟨[("performance_score", List.replicate 5 (some 3))]⟩
        "performance_score")) ∧
    (train_baseline_models
        ⟨[("performance_score", List.replicate 5 (some 3))]⟩).2 =
      .error (.insufficientSamples 5) := by
  have h := train_baseline_models_gate_is_ten
    ⟨[("performance_score", List.replicate 5 (some 3))]⟩
    (by decide) (by decide)
  refine ⟨by decide, by decide, ?_⟩
  rw [h]
  rfl

/-! ## Train/test split (`sklearn.model_selection.train_test_split`)

`train_baseline_models` splits the prepared rows with
`train_test_split(X, y, test_size=1-config.train_test_split,
random_state=config.random_state)` (`baseline_models.py` lines 266-269 and
349-351).  sklearn draws a pseudo-random permutation of the row indices,
takes the first `n_test` entries as the test partition and the rest as the
train partition.  The permutation produced by the seeded Mersenne-Twister
generator is external to this embedding and enters as a parameter, as does
the computed test count; the group-awareness results below hold for every
permutation and every nontrivial test count, so they are independent of
both. -/

/-- The index split of `train_test_split`: `(train_indices, test_indices)`
from a permutation of the row indices and the test count. -/
def train_test_split_rows (perm : List ℕ) (nTest : ℕ) :
    List ℕ × List ℕ :=
  (perm.drop nTest, perm.take nTest)

/-- The subjects (`user_id` of the underlying dataset row) appearing in one
partition, given the per-row subject list. -/
def subjectsAt (subjects : List String) (idx : List ℕ) : List String :=
  idx.filterMap fun i => subjects[i]?

/-- C4 counterexample: a 10-row dataset (large enough to pass the sample gate of the
trainer) whose rows all belong to subject `"user_1"`: the split places
`"user_1"` in the train partition and in the test partition, so the split
is not group-aware. -/
theorem train_test_split_subject_in_both_cex :
    "user_1" ∈ subjectsAt (List.replicate 10 "user_1")
        (train_test_split_rows (List.range 10) 3).1 ∧
    "user_1" ∈ subjectsAt (List.replicate 10 "user_1")
        (train_test_split_rows (List.range 10) 3).2 := by
  refine ⟨by decide, by decide⟩

/-- C4 amended: the split of `train_baseline_models` is a row-level random
split that never consults subject identity: for every dataset whose rows
all share one subject, every permutation the seeded generator may produce
and every nontrivial test count, the rows of that subject appear in the train
partition and in the test partition — the group-split invariant fails, not
just for some unlucky seed but unavoidably. -/
theorem train_test_split_not_group_aware (s : String) (n : ℕ)
    (perm : List ℕ) (nTest : ℕ) (hlen : perm.length = n)
    (hmem : ∀ i ∈ perm, i < n) (h1 : 0 < nTest) (h2 : nTest < n) :
    s ∈ subjectsAt (List.replicate n s)
        (train_test_split_rows perm nTest).1 ∧
    s ∈ subjectsAt (List.replicate n s)
        (train_test_split_rows perm nTest).2 := by
  have hsub : ∀ i ∈ perm, (List.replicate n s)[i]? = some s := by
    intro i hi
    rw [List.getElem?_replicate, if_pos (hmem i hi)]
  constructor
  · have hne : (perm.drop nTest) ≠ [] := by
      intro hnil
      have := congrArg List.length hnil
      rw [List.length_drop, hlen] at this
      simp at this
      omega
    obtain ⟨i, hi⟩ := List.exists_mem_of_ne_nil _ hne
    unfold subjectsAt train_test_split_rows
    rw [List.mem_filterMap]
    exact ⟨i, hi, hsub i (List.mem_of_mem_drop hi)⟩
  · have hne : (perm.take nTest) ≠ [] := by
      intro hnil
      have := congrArg List.length hnil
      rw [List.length_take, hlen] at this
      simp at this
      omega
    obtain ⟨i, hi⟩ := List.exists_mem_of_ne_nil _ hne
    unfold subjectsAt train_test_split_rows
    rw [List.mem_filterMap]
    exact ⟨i, hi, hsub i (List.mem_of_mem_take hi)⟩

/-- C4 amended witness: a concrete 12-row single-subject instance with test
count 4 and a non-identity permutation. -/
theorem train_test_split_not_group_aware_witness :
    ((List.range 11).reverse ++ [11]).length = 12 ∧
    (0 < 4) ∧ (4 < 12) ∧
    ("user_2" ∈ subjectsAt (List.replicate 12 "user_2")
        (train_test_split_rows ((List.range 11).reverse ++ [11]) 4).1 ∧
     "user_2" ∈ subjectsAt (List.replicate 12 "user_2")
        (train_test_split_rows ((List.range 11).reverse ++ [11]) 4).2) :=
  ⟨by decide, by decide, by decide,
   train_test_split_not_group_aware "user_2" 12
     ((List.range 11).reverse ++ [11]) 4 (by decide) (by decide)
     (by decide) (by decide)⟩

/-! ## Dataset assembly (`dataset_builder.py`)

`build_training_dataset` is embedded over row-oriented frames; the four
source fetches are external reads and enter as inputs.  The function body
contains no `raise`: the `Except` error branch of the embedding is never taken. -/

/-- A fetched/assembled table: column names plus rows of cells.  All cells
are numeric in this model (`none` = NULL/NaN). -/
structure BFrame where
  cols : List String
  rows : List (List (Option ℚ))
deriving DecidableEq, Repr

/-- The values a row carries for the given key columns (missing key columns
read as null). -/
def keyTuple (f : BFrame) (keys : List String) (row : List (Option ℚ)) :
    List (Option ℚ) :=
  keys.map fun k =>
    match f.cols.findIdx? (fun c => c == k) with
    | some i => row.getD i none
    | none => none

/-- Indices of the non-key columns of the right frame. -/
def nonKeyIdxs (r : BFrame) (keys : List String) : List ℕ :=
  (List.range r.cols.length).filter fun i =>
    match r.cols[i]? with
    | some c => !(keys.contains c)
    | none => false

/-- `df.merge(right, on=keys, how="left")`: every left row is kept; it is
paired with each right row whose (non-null) key tuple matches, and with
nulls in the non-key columns of the right frame when no right row matches
(pandas: null keys never match). -/
def leftMerge (l r : BFrame) (keys : List String) : BFrame :=
  let rIdx := nonKeyIdxs r keys
  { cols := l.cols ++ rIdx.map (fun i => r.cols.getD i ""),
    rows := l.rows.flatMap fun lrow =>
      let ms := r.rows.filter fun rrow =>
        decide (keyTuple l keys lrow = keyTuple r keys rrow) &&
          (keyTuple l keys lrow).all Option.isSome
      if ms.isEmpty then [lrow ++ rIdx.map fun _ => none]
      else ms.map fun rrow => lrow ++ rIdx.map fun i => rrow.getD i none }

/-- All values of a named column (empty when absent). -/
def getColB (f : BFrame) (c : String) : List (Option ℚ) :=
  match f.cols.findIdx? (fun c0 => c0 == c) with
  | some i => f.rows.map fun row => row.getD i none
  | none => []

/-- Rewrite one column cell-wise, leaving the frame unchanged when the
column is absent. -/
def mapCol (f : BFrame) (c : String) (g : Option ℚ → Option ℚ) : BFrame :=
  match f.cols.findIdx? (fun c0 => c0 == c) with
  | some i => ⟨f.cols, f.rows.map fun row =>
      row.mapIdx fun j v => if j = i then g v else v⟩
  | none => f

/-- Column mean over the non-null values (`Series.mean()`, skipna); NaN for
an all-null column. -/
def meanColQ (xs : List (Option ℚ)) : Option ℚ :=
  let vs := xs.filterMap id
  if vs.length = 0 then none else some (vs.sum / (vs.length : ℚ))

/-- Identifier/metadata columns excluded from feature detection
(`dataset_builder.py` lines 276-280). -/
def excludeCols : List String :=
  ["outcome_id", "user_id", "role_id", "company_id",
   "role_name", "industry", "seniority_level",
   "months_in_role", "promoted", "exit_date", "would_rehire", "verified"]

/-- `fillna` of one feature column per the configured strategy
(`dataset_builder.py` lines 287-294); the `"drop"` strategy has no
implemented branch and leaves the column untouched. -/
def fillFeature (strategy : String) (f : BFrame) (c : String) : BFrame :=
  if strategy = "median" then
    match medianQ (getColB f c) with
    | some m => mapCol f c fun v => some (v.getD m)
    | none => f
  else if strategy = "mean" then
    match meanColQ (getColB f c) with
    | some m => mapCol f c fun v => some (v.getD m)
    | none => f
  else f

/-- `build_training_dataset()` (`dataset_builder.py` lines 178-323): when
the outcomes table is empty, log an error and return `pd.DataFrame()` (an
empty, zero-column frame); otherwise left-join each non-empty feature block
onto the outcomes, fill `reference_count` nulls with 0 and fill the feature
columns per the configured strategy.  The body raises nothing, so the
`.error` branch of the result type is never produced. -/
def build_training_dataset (outcomes kpis cognitive references : BFrame)
    (strategy : String) : Except String BFrame :=
  if outcomes.rows.isEmpty then .ok ⟨[], []⟩
  else
    let df1 := if kpis.rows.isEmpty then outcomes
      else leftMerge outcomes kpis ["user_id", "role_id"]
    let df2 := if cognitive.rows.isEmpty then df1
      else leftMerge df1 cognitive ["user_id"]
    let df3 := if references.rows.isEmpty then df2
      else leftMerge df2 references ["user_id", "role_id"]
    let df4 := if df3.cols.contains "reference_count" then
        mapCol df3 "reference_count" (fun v => some (v.getD 0))
      else df3
    let fcols := df4.cols.filter fun c =>
      !(excludeCols.contains c) && !(c == "hired") &&
        !(c == "performance_score")
    .ok (fcols.foldl (fillFeature strategy) df4)

/-- A non-empty KPI block, showing the empty-outcome behaviour does not
depend on the feature sources. -/
def kpisBlock : BFrame :=
  ⟨["user_id", "role_id", "kpi_sales"], [[some 1, some 1, some 4]]⟩

/-- C6 counterexample: with the required outcome source empty,
`build_training_dataset` does not raise a descriptive error: it returns
normally, and what it returns is exactly the empty, zero-column frame. -/
theorem build_training_dataset_empty_frame_cex :
    build_training_dataset ⟨["user_id", "role_id", "hired"], []⟩
        kpisBlock ⟨["user_id"], []⟩ ⟨["user_id", "role_id"], []⟩ "median" =
      .ok ⟨[], []⟩ ∧
    (⟨[], []⟩ : BFrame).cols.length = 0 ∧
    (⟨[], []⟩ : BFrame).rows.length = 0 := by
  refine ⟨rfl, rfl, rfl⟩

/-- C6 amended: whenever the outcomes source is empty,
`build_training_dataset` logs the error and returns the empty, zero-column
frame (`pd.DataFrame()`) without raising; downstream callers are expected
to guard on emptiness. -/
theorem build_training_dataset_empty_outcomes (outcomes kpis cognitive
    references : BFrame) (strategy : String)
    (h : outcomes.rows = []) :
    build_training_dataset outcomes kpis cognitive references strategy =
      .ok ⟨[], []⟩ := by
  unfold build_training_dataset
  rw [if_pos (by rw [h]; rfl)]

/-- C6 amended witness: concrete empty-outcomes run. -/
theorem build_training_dataset_empty_outcomes_witness :
    (⟨["user_id", "role_id", "hired"], []⟩ : BFrame).rows = [] ∧
    build_training_dataset ⟨["user_id", "role_id", "hired"], []⟩
        kpisBlock ⟨["user_id"], []⟩ ⟨["user_id", "role_id"], []⟩ "mean" =
      .ok ⟨[], []⟩ :=
  ⟨rfl,
   build_training_dataset_empty_outcomes
     ⟨["user_id", "role_id", "hired"], []⟩ kpisBlock ⟨["user_id"], []⟩
     ⟨["user_id", "role_id"], []⟩ "mean" rfl⟩

/-! ## Artifact writing (`ml/train_hrscore.py`)

`save_model_artifacts` writes the bundle into
`ARTIFACTS_DIR / f"{model_name}_{version}"` created with
`mkdir(exist_ok=True)` and opens every file in write mode (truncate).
pathlib joins are structural, so a path is modelled as a
(directory, filename) pair; the filesystem is an association list from
paths to file contents, and writing truncates/overwrites an existing
entry. -/

/-- A (directory, filename) path under `ARTIFACTS_DIR`. -/
abbrev ArtPath := String × String

/-- Filesystem state: file path to content. -/
abbrev FileSys := List (ArtPath × String)

/-- `open(path, w)` followed by a write: overwrite the existing entry or create a new
one. -/
def fsWrite (fs : FileSys) (p : ArtPath) (content : String) : FileSys :=
  if fs.any (fun e => decide (e.1 = p)) then
    fs.map fun e => if e.1 = p then (p, content) else e
  else fs ++ [(p, content)]

/-- Content of a file, if present. -/
def fsRead (fs : FileSys) (p : ArtPath) : Option String :=
  (fs.find? fun e => decide (e.1 = p)).map Prod.snd

/-- `f"{model_name}_{version}"` — the artifact directory name
(`train_hrscore.py` line 547). -/
def artifactDirName (modelName version : String) : String :=
  modelName ++ "_" ++ version

/-- The file contents produced for one bundle (model pickle, manifest,
metrics, optional feature-importance table, README); their construction is
external to the path discipline under verification. -/
structure ArtifactContent where
  modelPkl : String
  manifest : String
  metrics : String
  importanceCsv : Option String
  readme : String
deriving DecidableEq, Repr

/-- `save_model_artifacts` (`train_hrscore.py` lines 523-652): create the
`{model_name}_{version}` directory with `exist_ok=True` (an existing
directory is reused silently) and write the five bundle files into it,
truncating any file already there.  The `version` argument is the explicit
`--version` value or the `datetime.now()` timestamp of the caller. -/
def save_model_artifacts (fs : FileSys) (modelName version : String)
    (c : ArtifactContent) : FileSys :=
  let d := artifactDirName modelName version
  let fs1 := fsWrite fs (d, "model.pkl") c.modelPkl
  let fs2 := fsWrite fs1 (d, "manifest.json") c.manifest
  let fs3 := fsWrite fs2 (d, "metrics.json") c.metrics
  let fs4 := match c.importanceCsv with
    | some t => fsWrite fs3 (d, "feature_importance.csv") t
    | none => fs3
  fsWrite fs4 (d, "README.md") c.readme

theorem fsRead_fsWrite_ne (fs : FileSys) (p q : ArtPath) (content : String)
    (h : q ≠ p) : fsRead (fsWrite fs p content) q = fsRead fs q := by
  have hpq : decide (p = q) = false := by
    rw [decide_eq_false_iff_not]
    exact fun hc => h hc.symm
  unfold fsRead fsWrite
  by_cases hin : fs.any (fun e => decide (e.1 = p)) = true
  · rw [if_pos hin]
    clear hin
    induction fs with
    | nil => rfl
    | cons hd tl ih =>
      rw [List.map_cons]
      by_cases hp : hd.1 = p
      · rw [if_pos hp]
        rw [List.find?_cons_of_neg _ (by simpa using hpq),
          List.find?_cons_of_neg _ (by simp only [hp]; simpa using hpq)]
        exact ih
      · rw [if_neg hp]
        by_cases hq : hd.1 = q
        · rw [List.find?_cons_of_pos _ (by simpa using hq),
            List.find?_cons_of_pos _ (by simpa using hq)]
        · rw [List.find?_cons_of_neg _ (by simpa using hq),
            List.find?_cons_of_neg _ (by simpa using hq)]
          exact ih
  · rw [if_neg hin]
    clear hin
    induction fs with
    | nil =>
      rw [List.nil_append,
        List.find?_cons_of_neg _ (by simpa using hpq)]
    | cons hd tl ih =>
      rw [List.cons_append]
      by_cases hq : hd.1 = q
      · rw [List.find?_cons_of_pos _ (by simpa using hq),
          List.find?_cons_of_pos _ (by simpa using hq)]
      · rw [List.find?_cons_of_neg _ (by simpa using hq),
          List.find?_cons_of_neg _ (by simpa using hq)]
        exact ih

/-- Reading any path outside the directory of a bundle is unaffected by a
save. -/
theorem fsRead_save_other_dir (fs : FileSys) (modelName version : String)
    (c : ArtifactContent) (q : ArtPath)
    (h : q.1 ≠ artifactDirName modelName version) :
    fsRead (save_model_artifacts fs modelName version c) q = fsRead fs q := by
  have hne : ∀ f : String, q ≠ (artifactDirName modelName version, f) := by
    intro f hc
    exact h (congrArg Prod.fst hc)
  unfold save_model_artifacts
  cases c.importanceCsv <;>
    simp only [fsRead_fsWrite_ne _ _ _ _ (hne _)]

/-- The two bundle contents of the C7 scenario. -/
def contentA : ArtifactContent :=
  ⟨"model-A", "manifest-A", "metrics-A", none, "readme-A"⟩

/-- Second bundle content, differing from the first. -/
def contentB : ArtifactContent :=
  ⟨"model-B", "manifest-B", "metrics-B", none, "readme-B"⟩

/-- C7 counterexample: saving twice with the same model name and the same
version (a repeated run with an explicit `--version`, or two saves of the
same model within one timestamp second) writes into the directory already
written by the earlier save and overwrites its files in place: after the
second save, every file of the first bundle has been replaced. -/
theorem save_model_artifacts_overwrite_cex :
    fsRead (save_model_artifacts [] "ridge" "v1" contentA)
        ("ridge_v1", "model.pkl") = some "model-A" ∧
    fsRead (save_model_artifacts
        (save_model_artifacts [] "ridge" "v1" contentA) "ridge" "v1"
        contentB) ("ridge_v1", "model.pkl") = some "model-B" ∧
    ("model-A" : String) ≠ "model-B" := by
  refine ⟨rfl, rfl, by decide⟩

/-- C7 amended: bundle locations are keyed by `(model_name, version)`:
saves whose `{model_name}_{version}` directory names differ never touch
the files of one another, but a save that reuses an existing directory name
(same model and version) overwrites the earlier bundle in place. -/
theorem save_model_artifacts_distinct_dirs (fs : FileSys)
    (m1 v1 m2 v2 : String) (c1 c2 : ArtifactContent) (f : String)
    (h : artifactDirName m2 v2 ≠ artifactDirName m1 v1) :
    fsRead (save_model_artifacts (save_model_artifacts fs m1 v1 c1)
        m2 v2 c2) (artifactDirName m1 v1, f) =
      fsRead (save_model_artifacts fs m1 v1 c1)
        (artifactDirName m1 v1, f) :=
  fsRead_save_other_dir _ m2 v2 c2 _ (fun hc => h hc.symm)

/-- C7 amended witness: a save under a different version leaves the
model file of the earlier bundle readable and unchanged. -/
theorem save_model_artifacts_distinct_dirs_witness :
    (artifactDirName "ridge" "20250102_000000" ≠
      artifactDirName "ridge" "20250101_000000") ∧
    fsRead (save_model_artifacts
        (save_model_artifacts [] "ridge" "20250101_000000" contentA)
        "ridge" "20250102_000000" contentB)
      (artifactDirName "ridge" "20250101_000000", "model.pkl") =
      fsRead (save_model_artifacts [] "ridge" "20250101_000000" contentA)
        (artifactDirName "ridge" "20250101_000000", "model.pkl") :=
  ⟨by decide,
   save_model_artifacts_distinct_dirs [] "ridge" "20250101_000000" "ridge"
     "20250102_000000" contentA contentB "model.pkl" (by decide)⟩

end HRKeyPoC
